import Mathlib

/-!
Shallow embedding of the MQTT session manager in `src/mqtt.c`
(esp32-ble2mqtt).

Topics and the namespace string are modelled as lists of characters
(`Str`), payloads as lists of bytes (`List Nat`).  The C linked lists
`subscription_list` and `publications_list` become Lean lists (the
`next` pointer is the list structure); the module-level globals become
the fields of `MqttState`.  Calls into the transport (`esp_mqtt_*`)
are recorded in a trace of `TCall` values, and the transport's boolean
results are passed in as explicit parameters.  Invocations of
application-supplied callbacks are recorded as `CbCall` values, with
the callback / context / destructor pointers modelled as numeric
identifiers (`0` playing the role of NULL only where the code itself
never branches on it).
-/

abbrev Str := List Char

/-- A node of `mqtt_subscription_t`: stored topic plus the opaque
`cb`, `ctx` and `free_cb` pointers (modelled as ids). -/
structure Subscription where
  topic : Str
  cb : Nat
  ctx : Nat
  free_cb : Nat
  deriving DecidableEq

/-- A node of `mqtt_publications_t`: the queued topic, the copied
payload bytes, and the stored `len`, `qos`, `retained`. -/
structure PendingPub where
  topic : Str
  payload : List Nat
  len : Nat
  qos : Int
  retained : Nat
  deriving DecidableEq

/-- The module-level mutable state of mqtt.c: the namespace string
(`NULL` and `""` behave identically in `mqtt_add_pfx` /
`mqtt_remove_pfx`, so both are modelled as `[]`), `subscription_list`,
`publications_list`, `is_connected`, and whether each of the two
application callbacks is registered (non-NULL). -/
structure MqttState where
  pfx : Str
  subs : List Subscription
  pubs : List PendingPub
  is_connected : Bool
  on_connected : Bool
  on_disconnected : Bool
  deriving DecidableEq

/-- A call made into the transport (`esp_mqtt_publish`,
`esp_mqtt_subscribe`, `esp_mqtt_unsubscribe`, `esp_mqtt_start`,
`esp_mqtt_stop`), with the arguments it received. -/
inductive TCall where
  | pub (topic : Str) (payload : List Nat) (len : Nat) (qos : Int) (retained : Nat)
  | sub (topic : Str) (qos : Int)
  | unsub (topic : Str)
  | start
  | stop
  deriving DecidableEq

/-- An invocation of an application-supplied callback: the
connected / disconnected notification, or a per-subscription message
callback `cur->cb(topic, payload, len, cur->ctx)`. -/
inductive CbCall where
  | connected
  | disconnected
  | message (cb : Nat) (topic : Str) (payload : List Nat) (len : Nat) (ctx : Nat)
  deriving DecidableEq

/-- `mqtt_add_prefix` (mqtt.c lines 39-48): with a NULL or empty
namespace string the topic is returned unchanged, otherwise the
namespace string is prepended. -/
def mqtt_add_pfx (p topic : Str) : Str :=
  if p = [] then topic else p ++ topic

/-- `mqtt_remove_prefix` (mqtt.c lines 50-60): with a NULL or empty
namespace string the topic is returned unchanged.  Otherwise the code
tests `memcmp(topic, prefix, strlen(prefix))` and strips when the
result is NON-zero, i.e. it strips exactly when the topic does NOT
start with the namespace string, and returns a topic that does start
with it unchanged. -/
def mqtt_remove_pfx (p topic : Str) : Str :=
  if p = [] then topic
  else if topic.take p.length = p then topic
  else topic.drop p.length

/-- `mqtt_subscription_add` (mqtt.c lines 73-90): walks `cur` to the
end of the list and appends the new record there. -/
def mqtt_subscription_add (l : List Subscription) (topic : Str)
    (cb ctx fcb : Nat) : List Subscription :=
  l ++ [⟨topic, cb, ctx, fcb⟩]

/-- `mqtt_subscription_remove` (mqtt.c lines 113-131): scans for the
first record with `!strncmp((*cur)->topic, topic, strlen(topic))`,
i.e. whose stored topic has `topic` as a prefix, unlinks and frees it;
a no-op when no record matches. -/
def mqtt_subscription_remove (l : List Subscription) (topic : Str) :
    List Subscription :=
  match l with
  | [] => []
  | r :: rest =>
      if r.topic.take topic.length = topic then rest
      else r :: mqtt_subscription_remove rest topic

/-- `mqtt_publication_add` (mqtt.c lines 133-149): copies the first
`len` bytes of the payload into owned storage and PREPENDS the new
node (`pub->next = *list; *list = pub;`). -/
def mqtt_publication_add (l : List PendingPub) (topic : Str)
    (payload : List Nat) (len : Nat) (qos : Int) (retained : Nat) :
    List PendingPub :=
  ⟨topic, payload.take len, len, qos, retained⟩ :: l

/-- `mqtt_publish` (mqtt.c lines 224-238): namespaces the topic with
`mqtt_add_pfx`; while connected it forwards once to
`esp_mqtt_publish` and returns `result != true` (0 on transport
success, 1 on transport failure) without touching the queue; while
disconnected it prepends a copied entry to `publications_list` and
returns 0.  `tr` is the transport's boolean result (ignored when
disconnected, as no transport call is made). -/
def mqtt_publish (tr : Bool) (s : MqttState) (topic_in : Str)
    (payload : List Nat) (len : Nat) (qos : Int) (retained : Nat) :
    MqttState × Int × List TCall :=
  let topic := mqtt_add_pfx s.pfx topic_in
  if s.is_connected then
    (s, if tr then 0 else 1, [TCall.pub topic payload len qos retained])
  else
    ({ s with pubs := mqtt_publication_add s.pubs topic payload len qos retained },
     0, [])

/-- `mqtt_publications_publish` (mqtt.c lines 171-181): walks the list
from its head and calls `mqtt_publish(e->topic, e->payload, e->len,
e->qos, e->retained)` on each node.  It runs only from the connected
branch of `mqtt_status_cb` (after `is_connected = 1`), where each such
call forwards straight to the transport, re-applying `mqtt_add_pfx` to
the stored (already namespaced) topic; the transport's per-call result
is ignored.  The value is the emitted transport trace. -/
def mqtt_publications_publish (p : Str) (l : List PendingPub) : List TCall :=
  l.map (fun e => TCall.pub (mqtt_add_pfx p e.topic) e.payload e.len e.qos e.retained)

/-- The retry loop of `mqtt_subscribe` (mqtt.c lines 194-199),
unrolled.  `r0 r1 r2 r3` are the boolean results of the successive
`esp_mqtt_subscribe` calls; the value is (number of transport calls
made, final value of `retries`).  The loop condition
`(esp_mqtt_subscribe(topic, qos) != true) && retries < 3` is evaluated
up to four times; on the fourth evaluation `retries` is already 3, so
the fourth call is made but its result `r3` cannot keep the loop going
and cannot avoid the `retries == 3` failure path. -/
def subscribeAttempts (r0 r1 r2 _r3 : Bool) : Nat × Nat :=
  if r0 then (1, 0)
  else if r1 then (2, 1)
  else if r2 then (3, 2)
  else (4, 3)

/-- `mqtt_subscribe` (mqtt.c lines 183-209): namespaces the topic,
fails with -1 (making no transport call and no record) when
disconnected; otherwise runs the retry loop, fails with -1 (and no
record) when `retries` reached 3, and on success appends one record
via `mqtt_subscription_add` and returns 0. -/
def mqtt_subscribe (r0 r1 r2 r3 : Bool) (s : MqttState) (topic_in : Str)
    (qos : Int) (cb ctx fcb : Nat) : MqttState × Int × List TCall :=
  let topic := mqtt_add_pfx s.pfx topic_in
  if s.is_connected = false then (s, -1, [])
  else
    let a := subscribeAttempts r0 r1 r2 r3
    let trace := List.replicate a.1 (TCall.sub topic qos)
    if a.2 = 3 then (s, -1, trace)
    else ({ s with subs := mqtt_subscription_add s.subs topic cb ctx fcb }, 0, trace)

/-- `mqtt_unsubscribe` (mqtt.c lines 211-222): namespaces the topic,
always runs `mqtt_subscription_remove`, returns 0 when disconnected
(no transport call), and when connected returns the result of
`esp_mqtt_unsubscribe` converted from bool to int (true ↦ 1,
false ↦ 0). -/
def mqtt_unsubscribe (tr : Bool) (s : MqttState) (topic_in : Str) :
    MqttState × Int × List TCall :=
  let topic := mqtt_add_pfx s.pfx topic_in
  let s' := { s with subs := mqtt_subscription_remove s.subs topic }
  if s'.is_connected = false then (s', 0, [])
  else (s', if tr then 1 else 0, [TCall.unsub topic])

/-- The two transport status events consumed by `mqtt_status_cb`. -/
inductive MqttStatus where
  | connected
  | disconnected
  deriving DecidableEq

/-- `mqtt_status_cb` (mqtt.c lines 240-259).  CONNECTED: set
`is_connected = 1`, run `mqtt_publications_publish` on the queue (the
emitted transport trace), free the queue, and invoke the registered
connected callback if any.  DISCONNECTED: set `is_connected = 0`, free
every subscription record, and invoke the registered disconnected
callback if any.  Neither branch inspects the previous value of
`is_connected`. -/
def mqtt_status_cb (s : MqttState) (status : MqttStatus) :
    MqttState × List TCall × List CbCall :=
  match status with
  | MqttStatus.connected =>
      ({ s with is_connected := true, pubs := [] },
       mqtt_publications_publish s.pfx s.pubs,
       if s.on_connected then [CbCall.connected] else [])
  | MqttStatus.disconnected =>
      ({ s with is_connected := false, subs := [] },
       [],
       if s.on_disconnected then [CbCall.disconnected] else [])

/-- `mqtt_message_cb` (mqtt.c lines 261-276): walks the subscription
list in order; for each record whose stored topic is `strcmp`-equal to
the inbound topic it invokes the record's callback with
`mqtt_remove_pfx` applied to the inbound topic, the payload, the
length and the record's context.  State is not modified. -/
def mqtt_message_cb (s : MqttState) (topic_in : Str)
    (payload : List Nat) (len : Nat) : List CbCall :=
  (s.subs.filter (fun r => r.topic = topic_in)).map
    (fun r => CbCall.message r.cb (mqtt_remove_pfx s.pfx topic_in) payload len r.ctx)

/-- `mqtt_connect` (mqtt.c lines 278-291): replaces the namespace
string (NULL ↦ `[]`) and calls `esp_mqtt_start`; it does not change
`is_connected`, the registry or the queue, and returns 0. -/
def mqtt_connect (s : MqttState) (pfx_in : Str) : MqttState × Int × List TCall :=
  ({ s with pfx := pfx_in }, 0, [TCall.start])

/-- `mqtt_disconnect` (mqtt.c lines 293-299): forces
`is_connected = 0`, calls `esp_mqtt_stop` and returns 0.  It does not
touch `subscription_list` or `publications_list`. -/
def mqtt_disconnect (s : MqttState) : MqttState × Int × List TCall :=
  ({ s with is_connected := false }, 0, [TCall.stop])

/-- `mqtt_set_on_connected_cb` (mqtt.c lines 63-66); `b` records
whether the stored pointer is non-NULL. -/
def mqtt_set_on_connected_cb (s : MqttState) (b : Bool) : MqttState :=
  { s with on_connected := b }

/-- `mqtt_set_on_disconnected_cb` (mqtt.c lines 68-71). -/
def mqtt_set_on_disconnected_cb (s : MqttState) (b : Bool) : MqttState :=
  { s with on_disconnected := b }

/-- The state at startup: all globals NULL / 0 (mqtt.c lines 10,
31-37). -/
def mqtt_init_state : MqttState :=
  ⟨[], [], [], false, false, false⟩

/-- One externally triggered, run-to-completion step: a public
operation of the module or a transport event, with the transport's
boolean answers carried as arguments. -/
inductive Op where
  | publish (tr : Bool) (topic : Str) (payload : List Nat) (len : Nat)
      (qos : Int) (retained : Nat)
  | subscribe (r0 r1 r2 r3 : Bool) (topic : Str) (qos : Int) (cb ctx fcb : Nat)
  | unsubscribe (tr : Bool) (topic : Str)
  | connect (p : Str)
  | disconnect
  | evConnected
  | evDisconnected
  | evMessage (topic : Str) (payload : List Nat) (len : Nat)
  | setConnCb (b : Bool)
  | setDiscCb (b : Bool)
  deriving DecidableEq

/-- The state reached after one step (traces and return values
projected away). -/
def step (s : MqttState) (op : Op) : MqttState :=
  match op with
  | Op.publish tr t pl len qos ret => (mqtt_publish tr s t pl len qos ret).1
  | Op.subscribe r0 r1 r2 r3 t qos cb ctx fcb =>
      (mqtt_subscribe r0 r1 r2 r3 s t qos cb ctx fcb).1
  | Op.unsubscribe tr t => (mqtt_unsubscribe tr s t).1
  | Op.connect p => (mqtt_connect s p).1
  | Op.disconnect => (mqtt_disconnect s).1
  | Op.evConnected => (mqtt_status_cb s MqttStatus.connected).1
  | Op.evDisconnected => (mqtt_status_cb s MqttStatus.disconnected).1
  | Op.evMessage _ _ _ => s
  | Op.setConnCb b => mqtt_set_on_connected_cb s b
  | Op.setDiscCb b => mqtt_set_on_disconnected_cb s b

/-- The state reached from startup by a sequence of run-to-completion
steps. -/
def mqtt_reach (ops : List Op) : MqttState :=
  ops.foldl step mqtt_init_state

/-- A connected state used to instantiate hypotheses. -/
def connState : MqttState :=
  { mqtt_init_state with is_connected := true }

/-- State obtained by configuring the namespace string "p/" and then
publishing "a" (payload [1]) and "b" (payload [2]) while
disconnected. -/
def c1State : MqttState :=
  mqtt_reach [Op.connect "p/".data,
              Op.publish false "a".data [1] 1 0 0,
              Op.publish false "b".data [2] 1 0 0]

/-- Claim C1: the flush on the connected transition is claimed to
invoke the transport once per queued entry in enqueue order with each
entry's stored topic.  Evaluating the code: after enqueuing "a" then
"b" under namespace string "p/", the flush emits the entries in
REVERSE enqueue order, and each topic is namespaced a second time
("p/p/b", "p/p/a") because the flush routes through `mqtt_publish`,
which re-applies `mqtt_add_pfx` to the already-namespaced stored
topic.  The queue is cleared and each entry is published exactly
once, but neither the order nor the topics are as claimed. -/
theorem c1_flush_reversed_and_renamespaced :
    (mqtt_status_cb c1State MqttStatus.connected).2.1 =
      [TCall.pub "p/p/b".data [2] 1 0 0, TCall.pub "p/p/a".data [1] 1 0 0] ∧
    (mqtt_status_cb c1State MqttStatus.connected).2.1 ≠
      [TCall.pub "p/a".data [1] 1 0 0, TCall.pub "p/b".data [2] 1 0 0] ∧
    (mqtt_status_cb c1State MqttStatus.connected).1.pubs = [] ∧
    c1State.pubs = [⟨"p/b".data, [2], 1, 0, 0⟩, ⟨"p/a".data, [1], 1, 0, 0⟩] := by
  decide

/-- Claim C2: the namespace round-trip
`mqtt_remove_pfx P (mqtt_add_pfx P S) = S` is claimed for every
non-empty namespace string P.  Evaluating the code at P = "home/",
S = "lamp": `mqtt_add_pfx` yields "home/lamp", which DOES start with
"home/", so the inverted `memcmp` test in `mqtt_remove_pfx` returns it
unchanged — the round-trip yields "home/lamp", not "lamp". -/
theorem c2_roundtrip_fails :
    mqtt_remove_pfx "home/".data (mqtt_add_pfx "home/".data "lamp".data) =
      "home/lamp".data ∧
    mqtt_remove_pfx "home/".data (mqtt_add_pfx "home/".data "lamp".data) ≠
      "lamp".data := by
  decide

/-- Namespace string "home/", connected, one registry record for
"home/lamp" (cb id 1, ctx id 0). -/
def c3State : MqttState :=
  { mqtt_init_state with
      pfx := "home/".data
      is_connected := true
      subs := [⟨"home/lamp".data, 1, 0, 0⟩] }

/-- Claim C3: dispatch is claimed to pass each matching callback the
namespace-stripped topic.  Evaluating the code: a message on
"home/lamp" with one exactly-matching record invokes that callback
once, but with the topic still carrying the namespace ("home/lamp",
not "lamp"), because `mqtt_remove_pfx` strips only topics that do NOT
start with the namespace string. -/
theorem c3_dispatch_delivers_unstripped_topic :
    mqtt_message_cb c3State "home/lamp".data [1] 1 =
      [CbCall.message 1 "home/lamp".data [1] 1 0] ∧
    mqtt_message_cb c3State "home/lamp".data [1] 1 ≠
      [CbCall.message 1 "lamp".data [1] 1 0] := by
  decide

/-- Claim C6: `mqtt_subscribe` called while disconnected returns the
non-zero NotConnected failure (-1), leaves the whole state (and in
particular the registry) unchanged, and makes no transport call,
whatever the topic, qos, callback, context and transport answers. -/
theorem c6_subscribe_disconnected_fails (s : MqttState) (r0 r1 r2 r3 : Bool)
    (t : Str) (qos : Int) (cb ctx fcb : Nat) (h : s.is_connected = false) :
    mqtt_subscribe r0 r1 r2 r3 s t qos cb ctx fcb = (s, -1, []) ∧
    (mqtt_subscribe r0 r1 r2 r3 s t qos cb ctx fcb).2.1 ≠ 0 := by
  simp [mqtt_subscribe, h]

/-- Witness for C6 at the startup state. -/
theorem c6_subscribe_disconnected_fails_witness :
    mqtt_init_state.is_connected = false ∧
    mqtt_subscribe true true true true mqtt_init_state "t".data 0 1 0 0 =
      (mqtt_init_state, -1, []) :=
  ⟨rfl, (c6_subscribe_disconnected_fails mqtt_init_state true true true true
    "t".data 0 1 0 0 rfl).1⟩

/-- Removing a subscription never does more than drop records. -/
lemma mqtt_subscription_remove_sublist (l : List Subscription) (t : Str) :
    (mqtt_subscription_remove l t).Sublist l := by
  induction l with
  | nil => exact List.Sublist.refl _
  | cons r rest ih =>
      by_cases h : r.topic.take t.length = t
      · simp only [mqtt_subscription_remove, if_pos h]
        exact List.Sublist.cons r (List.Sublist.refl rest)
      · simp only [mqtt_subscription_remove, if_neg h]
        exact List.Sublist.cons₂ r ih

/-- The state produced by `mqtt_unsubscribe` is the input state with
the first matching registry record removed, whatever the connectivity
flag and the transport answer. -/
lemma mqtt_unsubscribe_fst (tr : Bool) (s : MqttState) (t : Str) :
    (mqtt_unsubscribe tr s t).1 =
      { s with subs := mqtt_subscription_remove s.subs (mqtt_add_pfx s.pfx t) } := by
  cases hc : s.is_connected <;> simp [mqtt_unsubscribe, hc]

/-- A connected transition, one successful subscribe, then the public
`mqtt_disconnect` operation. -/
def c4Trace : List Op :=
  [Op.evConnected, Op.subscribe true true true true "t".data 0 1 0 0,
   Op.disconnect]

/-- Claim C4 counterexample: after a connected event, a successful
subscribe and then `mqtt_disconnect`, the connectivity flag is false
but the Subscription Registry is NOT empty — `mqtt_disconnect` only
clears the flag and calls `esp_mqtt_stop`; the registry is cleared
only by the transport's disconnected event. -/
theorem c4_disconnect_op_keeps_registry :
    (mqtt_reach c4Trace).is_connected = false ∧
    (mqtt_reach c4Trace).subs ≠ [] := by
  decide

/-- Claim C4, amended: the registry is empty immediately after the
disconnected-event handler returns (which also clears the flag), and
while the flag is false no operation ever adds a registry record (any
step from a disconnected state leaves the registry a sublist of what
it was); but the invariant claimed for every disconnected state fails
because `mqtt_disconnect` clears the flag without touching the
registry. -/
theorem c4_registry_cleared_by_disconnect_event (s : MqttState) (op : Op) :
    ((mqtt_status_cb s MqttStatus.disconnected).1.subs = [] ∧
     (mqtt_status_cb s MqttStatus.disconnected).1.is_connected = false) ∧
    (s.is_connected = false → ((step s op).subs).Sublist s.subs) := by
  refine ⟨⟨rfl, rfl⟩, ?_⟩
  intro h
  cases op with
  | publish tr t pl len qos ret => simp [step, mqtt_publish, h]
  | subscribe r0 r1 r2 r3 t qos cb ctx fcb => simp [step, mqtt_subscribe, h]
  | unsubscribe tr t =>
      simp only [step, mqtt_unsubscribe_fst]
      exact mqtt_subscription_remove_sublist s.subs (mqtt_add_pfx s.pfx t)
  | connect p => simp [step, mqtt_connect]
  | disconnect => simp [step, mqtt_disconnect]
  | evConnected => simp [step, mqtt_status_cb]
  | evDisconnected => simp [step, mqtt_status_cb]
  | evMessage t pl len => simp [step]
  | setConnCb b => simp [step, mqtt_set_on_connected_cb]
  | setDiscCb b => simp [step, mqtt_set_on_disconnected_cb]

/-- Witness for the amended C4 at the startup state. -/
theorem c4_registry_cleared_by_disconnect_event_witness :
    mqtt_init_state.is_connected = false ∧
    ((step mqtt_init_state Op.disconnect).subs).Sublist mqtt_init_state.subs :=
  ⟨rfl, (c4_registry_cleared_by_disconnect_event mqtt_init_state Op.disconnect).2 rfl⟩

/-- Claim C5: while connected, against a transport that rejects every
attempt, `mqtt_subscribe` makes exactly 4 transport subscribe calls
(the initial attempt plus the bound of 3 retries), returns the
non-zero SubscribeFailed result (-1) and leaves the state (hence the
registry) unchanged; if the transport accepts one of the first three
calls, exactly that many calls are made, one record is appended and 0
is returned. -/
theorem c5_subscribe_retry_bound (s : MqttState) (t : Str) (qos : Int)
    (cb ctx fcb : Nat) (h : s.is_connected = true) :
    (∀ r3 : Bool, mqtt_subscribe false false false r3 s t qos cb ctx fcb =
        (s, -1, List.replicate 4 (TCall.sub (mqtt_add_pfx s.pfx t) qos))) ∧
    (∀ r1 r2 r3 : Bool, mqtt_subscribe true r1 r2 r3 s t qos cb ctx fcb =
        ({ s with subs := mqtt_subscription_add s.subs (mqtt_add_pfx s.pfx t) cb ctx fcb },
         0, List.replicate 1 (TCall.sub (mqtt_add_pfx s.pfx t) qos))) ∧
    (∀ r2 r3 : Bool, mqtt_subscribe false true r2 r3 s t qos cb ctx fcb =
        ({ s with subs := mqtt_subscription_add s.subs (mqtt_add_pfx s.pfx t) cb ctx fcb },
         0, List.replicate 2 (TCall.sub (mqtt_add_pfx s.pfx t) qos))) ∧
    (∀ r3 : Bool, mqtt_subscribe false false true r3 s t qos cb ctx fcb =
        ({ s with subs := mqtt_subscription_add s.subs (mqtt_add_pfx s.pfx t) cb ctx fcb },
         0, List.replicate 3 (TCall.sub (mqtt_add_pfx s.pfx t) qos))) := by
  refine ⟨fun r3 => ?_, fun r1 r2 r3 => ?_, fun r2 r3 => ?_, fun r3 => ?_⟩ <;>
    simp [mqtt_subscribe, subscribeAttempts, h]

/-- Witness for C5 at a connected state: the always-rejecting case and
a first-attempt success. -/
theorem c5_subscribe_retry_bound_witness :
    connState.is_connected = true ∧
    mqtt_subscribe false false false false connState "t".data 0 1 0 0 =
      (connState, -1, List.replicate 4 (TCall.sub (mqtt_add_pfx connState.pfx "t".data) 0)) ∧
    mqtt_subscribe true false false false connState "t".data 0 1 0 0 =
      ({ connState with
          subs := mqtt_subscription_add connState.subs (mqtt_add_pfx connState.pfx "t".data) 1 0 0 },
       0, List.replicate 1 (TCall.sub (mqtt_add_pfx connState.pfx "t".data) 0)) :=
  ⟨rfl, (c5_subscribe_retry_bound connState "t".data 0 1 0 0 rfl).1 false,
   (c5_subscribe_retry_bound connState "t".data 0 1 0 0 rfl).2.1 false false false⟩

/-- The C7 invariant: while the connectivity flag is set, the
Pending-Publication Queue is empty. -/
def MqttQueueInv (s : MqttState) : Prop :=
  s.is_connected = true → s.pubs = []

/-- Every run-to-completion step preserves the C7 invariant: the only
step that sets the flag is the connected event, which also empties the
queue, and while connected `mqtt_publish` forwards to the transport
without enqueuing. -/
lemma step_preserves_queue_inv (s : MqttState) (op : Op)
    (h : MqttQueueInv s) : MqttQueueInv (step s op) := by
  cases op with
  | publish tr t pl len qos ret =>
      cases hc : s.is_connected with
      | true =>
          intro hcon
          simpa [step, mqtt_publish, hc] using h hc
      | false =>
          intro hcon
          simp [step, mqtt_publish, hc] at hcon
  | subscribe r0 r1 r2 r3 t qos cb ctx fcb =>
      cases hc : s.is_connected with
      | true =>
          intro hcon
          by_cases h3 : (subscribeAttempts r0 r1 r2 r3).2 = 3 <;>
            simpa [step, mqtt_subscribe, hc, h3] using h hc
      | false =>
          intro hcon
          simp [step, mqtt_subscribe, hc] at hcon
  | unsubscribe tr t =>
      intro hcon
      rw [step, mqtt_unsubscribe_fst] at hcon ⊢
      exact h hcon
  | connect p =>
      intro hcon
      simpa [step, mqtt_connect] using h hcon
  | disconnect =>
      intro hcon
      simp [step, mqtt_disconnect] at hcon
  | evConnected =>
      intro hcon
      simp [step, mqtt_status_cb]
  | evDisconnected =>
      intro hcon
      simp [step, mqtt_status_cb] at hcon
  | evMessage t pl len =>
      intro hcon
      exact h hcon
  | setConnCb b =>
      intro hcon
      simpa [step, mqtt_set_on_connected_cb] using h hcon
  | setDiscCb b =>
      intro hcon
      simpa [step, mqtt_set_on_disconnected_cb] using h hcon

/-- The C7 invariant holds along every run from a state satisfying
it. -/
lemma foldl_preserves_queue_inv (ops : List Op) :
    ∀ s : MqttState, MqttQueueInv s → MqttQueueInv (ops.foldl step s) := by
  induction ops with
  | nil => exact fun s h => h
  | cons op rest ih =>
      intro s h
      exact ih (step s op) (step_preserves_queue_inv s op h)

/-- Claim C7: in every state reachable from startup by public
operations and transport events (each run to completion), a true
connectivity flag implies an empty Pending-Publication Queue: the
connected transition flushes and frees the queue, and `mqtt_publish`
while connected forwards to the transport without enqueuing. -/
theorem c7_connected_queue_empty (ops : List Op)
    (h : (mqtt_reach ops).is_connected = true) :
    (mqtt_reach ops).pubs = [] :=
  foldl_preserves_queue_inv ops mqtt_init_state (fun _ => rfl) h

/-- Witness for C7: the run consisting of one connected event. -/
theorem c7_connected_queue_empty_witness :
    (mqtt_reach [Op.evConnected]).is_connected = true ∧
    (mqtt_reach [Op.evConnected]).pubs = [] :=
  ⟨rfl, c7_connected_queue_empty [Op.evConnected] rfl⟩

/-- Claim C8: `mqtt_publish` namespaces the topic; while connected it
makes exactly one transport publish call with the namespaced topic and
the given payload, length, qos and retained flag, leaves the state
untouched, and returns 0 exactly when the transport reported success;
while disconnected it prepends one entry (with the namespaced topic
and the copied first `len` payload bytes) to the queue, touches
nothing else, makes no transport call, and returns 0 unconditionally. -/
theorem c8_publish_forward_or_queue (s : MqttState) (tr : Bool) (t : Str)
    (pl : List Nat) (len : Nat) (qos : Int) (ret : Nat) :
    (s.is_connected = true →
      (mqtt_publish tr s t pl len qos ret).1 = s ∧
      ((mqtt_publish tr s t pl len qos ret).2.1 = 0 ↔ tr = true) ∧
      (mqtt_publish tr s t pl len qos ret).2.2 =
        [TCall.pub (mqtt_add_pfx s.pfx t) pl len qos ret]) ∧
    (s.is_connected = false →
      (mqtt_publish tr s t pl len qos ret).1.pubs =
        ⟨mqtt_add_pfx s.pfx t, pl.take len, len, qos, ret⟩ :: s.pubs ∧
      (mqtt_publish tr s t pl len qos ret).1.subs = s.subs ∧
      (mqtt_publish tr s t pl len qos ret).1.is_connected = false ∧
      (mqtt_publish tr s t pl len qos ret).2.1 = 0 ∧
      (mqtt_publish tr s t pl len qos ret).2.2 = []) := by
  constructor
  · intro h
    refine ⟨by simp [mqtt_publish, h], ?_, by simp [mqtt_publish, h]⟩
    cases tr <;> simp [mqtt_publish, h]
  · intro h
    simp [mqtt_publish, h, mqtt_publication_add]

/-- Witness for C8: a connected publish and a disconnected publish. -/
theorem c8_publish_forward_or_queue_witness :
    (connState.is_connected = true ∧
      (mqtt_publish true connState "t".data [1] 1 0 0).1 = connState ∧
      ((mqtt_publish true connState "t".data [1] 1 0 0).2.1 = 0 ↔ (true : Bool) = true) ∧
      (mqtt_publish true connState "t".data [1] 1 0 0).2.2 =
        [TCall.pub (mqtt_add_pfx connState.pfx "t".data) [1] 1 0 0]) ∧
    (mqtt_init_state.is_connected = false ∧
      (mqtt_publish true mqtt_init_state "t".data [1] 1 0 0).1.pubs =
        ⟨mqtt_add_pfx mqtt_init_state.pfx "t".data, [1].take 1, 1, 0, 0⟩ ::
          mqtt_init_state.pubs ∧
      (mqtt_publish true mqtt_init_state "t".data [1] 1 0 0).1.subs =
        mqtt_init_state.subs ∧
      (mqtt_publish true mqtt_init_state "t".data [1] 1 0 0).1.is_connected = false ∧
      (mqtt_publish true mqtt_init_state "t".data [1] 1 0 0).2.1 = 0 ∧
      (mqtt_publish true mqtt_init_state "t".data [1] 1 0 0).2.2 = []) :=
  ⟨⟨rfl, (c8_publish_forward_or_queue connState true "t".data [1] 1 0 0).1 rfl⟩,
   ⟨rfl, (c8_publish_forward_or_queue mqtt_init_state true "t".data [1] 1 0 0).2 rfl⟩⟩

/-- Claim C9: `mqtt_unsubscribe` namespaces the topic and always
removes the first registry record whose stored topic starts with the
namespaced string — `mqtt_subscription_remove` keeps the longest
non-matching head segment, drops the first match, and is a no-op when
nothing matches; while disconnected it then returns 0 with no
transport call, and while connected it additionally makes one
transport unsubscribe call and returns its result (as an int). -/
theorem c9_unsubscribe_removes_first_match (s : MqttState) (tr : Bool) (t : Str) :
    (mqtt_unsubscribe tr s t).1 =
      { s with subs := mqtt_subscription_remove s.subs (mqtt_add_pfx s.pfx t) } ∧
    (∀ (l : List Subscription) (u : Str),
      mqtt_subscription_remove l u =
        l.takeWhile (fun r => !(decide (r.topic.take u.length = u))) ++
        (l.dropWhile (fun r => !(decide (r.topic.take u.length = u)))).tail) ∧
    (s.is_connected = false →
      mqtt_unsubscribe tr s t =
        ({ s with subs := mqtt_subscription_remove s.subs (mqtt_add_pfx s.pfx t) },
         0, [])) ∧
    (s.is_connected = true →
      mqtt_unsubscribe tr s t =
        ({ s with subs := mqtt_subscription_remove s.subs (mqtt_add_pfx s.pfx t) },
         if tr then 1 else 0, [TCall.unsub (mqtt_add_pfx s.pfx t)])) := by
  refine ⟨mqtt_unsubscribe_fst tr s t, ?_, ?_, ?_⟩
  · intro l u
    induction l with
    | nil => simp [mqtt_subscription_remove]
    | cons r rest ih =>
        by_cases h : r.topic.take u.length = u <;>
          simp [mqtt_subscription_remove, h, ih]
  · intro h
    simp [mqtt_unsubscribe, h]
  · intro h
    simp [mqtt_unsubscribe, h]

/-- Witness for C9: a disconnected and a connected unsubscribe. -/
theorem c9_unsubscribe_removes_first_match_witness :
    (mqtt_init_state.is_connected = false ∧
      mqtt_unsubscribe true mqtt_init_state "t".data =
        ({ mqtt_init_state with
            subs := mqtt_subscription_remove mqtt_init_state.subs
              (mqtt_add_pfx mqtt_init_state.pfx "t".data) }, 0, [])) ∧
    (connState.is_connected = true ∧
      mqtt_unsubscribe true connState "t".data =
        ({ connState with
            subs := mqtt_subscription_remove connState.subs
              (mqtt_add_pfx connState.pfx "t".data) },
         if true then 1 else 0, [TCall.unsub (mqtt_add_pfx connState.pfx "t".data)])) :=
  ⟨⟨rfl, (c9_unsubscribe_removes_first_match mqtt_init_state true "t".data).2.2.1 rfl⟩,
   ⟨rfl, (c9_unsubscribe_removes_first_match connState true "t".data).2.2.2 rfl⟩⟩

/-- Claim C10: `mqtt_status_cb` never inspects the previous value of
the connectivity flag.  A CONNECTED event arriving in an
already-connected state still emits the full flush trace of the
current queue, clears the queue and invokes the registered connected
callback; a DISCONNECTED event arriving in an already-disconnected
state still clears the registry and invokes the registered
disconnected callback. -/
theorem c10_status_handler_no_dedup (s : MqttState) :
    mqtt_status_cb { s with is_connected := true } MqttStatus.connected =
      ({ s with is_connected := true, pubs := [] },
       mqtt_publications_publish s.pfx s.pubs,
       if s.on_connected then [CbCall.connected] else []) ∧
    mqtt_status_cb { s with is_connected := false } MqttStatus.disconnected =
      ({ s with is_connected := false, subs := [] },
       [],
       if s.on_disconnected then [CbCall.disconnected] else []) :=
  ⟨rfl, rfl⟩
